import Mathlib

/-!
Shallow embedding of the flask-simple-chats repository (authentication models and
views), together with proofs about the chat store, its two memoization caches,
the signed-token round trip, and the registration / reset-password /
current-user-resolution flows.

The embedding follows `app/authentication/models.py` and
`app/authentication/views.py`.  Machine state that in Python lives in the
process (the SQLAlchemy `chats` table and the two `functools.lru_cache`
memoization caches on `User.is_chat_between` and
`User.get_chat_id_by_users_ids`) is made explicit as a `ChatsState` record, and
every operation returns its result together with the successor state.  Python
exceptions are modelled with an explicit error type and `Except`.
-/

/-- The Python exceptions that the modelled code can raise. -/
inductive PyError where
  | SignatureExpired
  | BadSignature
  | UserNotFoundByIndexError
  | ChatAlreadyExistsError
  | ChatNotFoundByIndexesError
  /-- `TypeError` raised by `f(*None)` argument unpacking in `delete_chat`. -/
  | TypeErrorStarNone
deriving DecidableEq, Repr

/-- One row of the `chats` table: `(chat_id, user1_id, user2_id)`. -/
structure ChatRow where
  chat_id : Nat
  user1_id : Nat
  user2_id : Nat
deriving DecidableEq, Repr

/-- Python's `sorted([a, b])`: the two ids in ascending order. -/
def sortPair (a b : Nat) : Nat × Nat :=
  if a ≤ b then (a, b) else (b, a)

/-- The process state relevant to the chat operations: the `chats` table rows
plus the two `lru_cache` memoization tables, each keyed by the raw (unsorted)
argument pair exactly as `functools.lru_cache` keys them. -/
structure ChatsState where
  rows : List ChatRow
  cacheIsBetween : List ((Nat × Nat) × Bool)
  cacheGetId : List ((Nat × Nat) × Nat)
deriving DecidableEq, Repr

/-- The empty initial state: no chats, both caches empty. -/
def initialChatsState : ChatsState := ⟨[], [], []⟩

/-- Lookup in a memoization table. -/
def cacheLookup {β : Type} : List ((Nat × Nat) × β) → (Nat × Nat) → Option β
  | [], _ => none
  | (k', v) :: rest, k => if k' = k then some v else cacheLookup rest k

/-- Store a value in a memoization table.  `functools.lru_cache(maxsize=256)`
keeps at most 256 entries; we keep the most recent 256 (the LRU recency
bookkeeping only affects which entry is evicted, never the value returned for
a present key, so it is not tracked further). -/
def cacheInsert {β : Type} (c : List ((Nat × Nat) × β)) (k : Nat × Nat) (v : β) :
    List ((Nat × Nat) × β) :=
  (((k, v)) :: c).take 256

/-- The SQL existence query issued by `is_chat_between` after sorting:
`EXISTS (SELECT … WHERE user1_id = u1 AND user2_id = u2)`. -/
def chatExistsQuery (rows : List ChatRow) (u1 u2 : Nat) : Bool :=
  rows.any fun r => r.user1_id == u1 && r.user2_id == u2

/-- The SQL scalar query issued by `get_chat_id_by_users_ids` after sorting:
the `chat_id` of the first matching row, if any. -/
def chatIdQuery (rows : List ChatRow) (u1 u2 : Nat) : Option Nat :=
  (rows.find? fun r => r.user1_id == u1 && r.user2_id == u2).map (·.chat_id)

/-- What an uncached `is_chat_between(a, b)` computes: sort the pair, then run
the existence query. -/
def isBetweenSpec (rows : List ChatRow) (a b : Nat) : Bool :=
  chatExistsQuery rows (sortPair a b).1 (sortPair a b).2

/-- What an uncached `get_chat_id_by_users_ids(a, b)` computes: sort the pair,
run the scalar query, and raise `ChatNotFoundByIndexesError` when the result
is `None` (or `0`, by Python truthiness of `if not chat_id`). -/
def getIdSpec (rows : List ChatRow) (a b : Nat) : Except PyError Nat :=
  match chatIdQuery rows (sortPair a b).1 (sortPair a b).2 with
  | none => .error .ChatNotFoundByIndexesError
  | some cid => if cid = 0 then .error .ChatNotFoundByIndexesError else .ok cid

/-- `User.is_chat_between(user1_id, user2_id)` under `@lru_cache`: consult the
cache keyed by the raw argument pair; on a miss, sort the pair, run the
existence query and memoize the result. -/
def is_chat_between (s : ChatsState) (user1_id user2_id : Nat) : Bool × ChatsState :=
  match cacheLookup s.cacheIsBetween (user1_id, user2_id) with
  | some v => (v, s)
  | none =>
    let v := isBetweenSpec s.rows user1_id user2_id
    (v, { s with cacheIsBetween := cacheInsert s.cacheIsBetween (user1_id, user2_id) v })

/-- `User.get_chat_id_by_users_ids(user1_id, user2_id)` under `@lru_cache`:
consult the cache; on a miss, sort, query, raise on a missing (or falsy) id —
`lru_cache` memoizes only successful returns, never raised exceptions. -/
def get_chat_id_by_users_ids (s : ChatsState) (user1_id user2_id : Nat) :
    Except PyError Nat × ChatsState :=
  match cacheLookup s.cacheGetId (user1_id, user2_id) with
  | some cid => (.ok cid, s)
  | none =>
    match chatIdQuery s.rows (sortPair user1_id user2_id).1 (sortPair user1_id user2_id).2 with
    | none => (.error .ChatNotFoundByIndexesError, s)
    | some cid =>
      if cid = 0 then (.error .ChatNotFoundByIndexesError, s)
      else (.ok cid, { s with cacheGetId := cacheInsert s.cacheGetId (user1_id, user2_id) cid })

/-- The primary-key value SQLite assigns to a fresh `chats` row: one more than
the largest existing `chat_id` (ids may be reused after deletion, as the
repository's own tests exercise). -/
def newChatId (rows : List ChatRow) : Nat :=
  (rows.foldr (fun r m => max r.chat_id m) 0) + 1

/-- `User.create_chat(user1_id, user2_id)`: sort the pair, check existence via
the memoized `is_chat_between`; if absent, insert the sorted pair and clear the
`is_chat_between` cache (and only that cache); otherwise raise
`ChatAlreadyExistsError`. -/
def create_chat (s : ChatsState) (user1_id user2_id : Nat) : Except PyError Unit × ChatsState :=
  let p := sortPair user1_id user2_id
  let r := is_chat_between s p.1 p.2
  if r.1 = false then
    (.ok (), { r.2 with
               rows := r.2.rows ++ [⟨newChatId r.2.rows, p.1, p.2⟩],
               cacheIsBetween := [] })
  else
    (.error .ChatAlreadyExistsError, r.2)

/-- `chat_id = chat_id or User.get_chat_id_by_users_ids(*two_users_ids)`:
the fallback taken when `chat_id` is `None` or falsy (`0`).  Unpacking `*None`
raises `TypeError`. -/
def resolveChatId (s : ChatsState) (two_users_ids : Option (Nat × Nat)) :
    Except PyError Nat × ChatsState :=
  match two_users_ids with
  | none => (.error .TypeErrorStarNone, s)
  | some (a, b) => get_chat_id_by_users_ids s a b

/-- The tail of `delete_chat` after the chat id is resolved: on a resolution
error the exception propagates; otherwise run the SQL `DELETE WHERE chat_id = …`
(which deletes nothing when no row matches, without error), then clear both
memoization caches. -/
def deleteResolved : Except PyError Nat × ChatsState → Except PyError Unit × ChatsState
  | (.error e, s1) => (.error e, s1)
  | (.ok cid, s1) =>
    (.ok (), { s1 with
               rows := s1.rows.filter (fun r => r.chat_id != cid),
               cacheIsBetween := [],
               cacheGetId := [] })

/-- `User.delete_chat(two_users_ids=None, chat_id=None)`: a given truthy
`chat_id` wins; `None` or `0` falls back to the pair lookup
(`chat_id = chat_id or User.get_chat_id_by_users_ids(*two_users_ids)`), then
the row is deleted and both caches cleared. -/
def delete_chat (s : ChatsState) (two_users_ids : Option (Nat × Nat))
    (chat_id : Option Nat) : Except PyError Unit × ChatsState :=
  deleteResolved
    (match chat_id with
     | some cid => if cid = 0 then resolveChatId s two_users_ids else (.ok cid, s)
     | none => resolveChatId s two_users_ids)

/-- Every entry of the `is_chat_between` cache agrees with an uncached query
against the current table. -/
def IsBetweenCacheOK (s : ChatsState) : Prop :=
  ∀ k v, cacheLookup s.cacheIsBetween k = some v → isBetweenSpec s.rows k.1 k.2 = v

/-- Every entry of the `get_chat_id_by_users_ids` cache agrees with an uncached
query against the current table. -/
def GetIdCacheOK (s : ChatsState) : Prop :=
  ∀ k v, cacheLookup s.cacheGetId k = some v → getIdSpec s.rows k.1 k.2 = .ok v

/-- Both memoization caches agree with the underlying table. -/
def CachesOK (s : ChatsState) : Prop :=
  IsBetweenCacheOK s ∧ GetIdCacheOK s

/-- The states the process can actually be in: the empty initial state, closed
under running any of the four chat operations (successful or failing — a
failing call still leaves its successor state behind). -/
inductive Reachable : ChatsState → Prop where
  | init : Reachable initialChatsState
  | step_is_chat_between (s : ChatsState) (a b : Nat) :
      Reachable s → Reachable (is_chat_between s a b).2
  | step_get_chat_id (s : ChatsState) (a b : Nat) :
      Reachable s → Reachable (get_chat_id_by_users_ids s a b).2
  | step_create_chat (s : ChatsState) (a b : Nat) :
      Reachable s → Reachable (create_chat s a b).2
  | step_delete_chat (s : ChatsState) (p : Option (Nat × Nat)) (c : Option Nat) :
      Reachable s → Reachable (delete_chat s p c).2

/-! ### Basic lemmas: sorted pairs and the memoization tables -/

theorem sortPair_fst_le_snd (a b : Nat) : (sortPair a b).1 ≤ (sortPair a b).2 := by
  unfold sortPair; split <;> simp <;> omega

theorem sortPair_comm (a b : Nat) : sortPair b a = sortPair a b := by
  by_cases h1 : a ≤ b <;> by_cases h2 : b ≤ a <;> simp [sortPair, h1, h2]
  · exact ⟨Nat.le_antisymm h2 h1, Nat.le_antisymm h1 h2⟩
  · omega

theorem sortPair_idem (a b : Nat) :
    sortPair (sortPair a b).1 (sortPair a b).2 = sortPair a b := by
  rw [sortPair, if_pos (sortPair_fst_le_snd a b)]

theorem cacheLookup_take {β : Type} (c : List ((Nat × Nat) × β)) (n : Nat)
    (k : Nat × Nat) (v : β) (h : cacheLookup (c.take n) k = some v) :
    cacheLookup c k = some v := by
  induction c generalizing n with
  | nil => simp [cacheLookup] at h
  | cons hd tl ih =>
    cases n with
    | zero => simp [cacheLookup] at h
    | succ m =>
      obtain ⟨k', v'⟩ := hd
      rw [List.take_succ_cons] at h
      rw [cacheLookup] at h ⊢
      by_cases hk : k' = k
      · simpa [hk] using h
      · rw [if_neg hk] at h ⊢
        exact ih m h

theorem cacheLookup_cacheInsert {β : Type} (c : List ((Nat × Nat) × β))
    (k k' : Nat × Nat) (v w : β)
    (h : cacheLookup (cacheInsert c k v) k' = some w) :
    (k' = k ∧ w = v) ∨ cacheLookup c k' = some w := by
  have h2 := cacheLookup_take (((k, v)) :: c) 256 k' w h
  rw [cacheLookup] at h2
  by_cases hk : k = k'
  · left
    rw [if_pos hk] at h2
    exact ⟨hk.symm, (Option.some.injEq _ _ ▸ h2).symm⟩
  · right
    rwa [if_neg hk] at h2

/-! ### Effect lemmas for the memoized reads -/

theorem is_chat_between_rows (s : ChatsState) (a b : Nat) :
    ((is_chat_between s a b).2).rows = s.rows := by
  unfold is_chat_between; split <;> rfl

theorem is_chat_between_cacheGetId (s : ChatsState) (a b : Nat) :
    ((is_chat_between s a b).2).cacheGetId = s.cacheGetId := by
  unfold is_chat_between; split <;> rfl

theorem is_chat_between_fst (s : ChatsState) (a b : Nat) (h : IsBetweenCacheOK s) :
    (is_chat_between s a b).1 = isBetweenSpec s.rows a b := by
  unfold is_chat_between
  split
  · next v hc => exact (h (a, b) v hc).symm
  · rfl

theorem is_chat_between_preserves_isbetween (s : ChatsState) (a b : Nat)
    (h : IsBetweenCacheOK s) : IsBetweenCacheOK (is_chat_between s a b).2 := by
  unfold is_chat_between
  split
  · exact h
  · intro k w hw
    rcases cacheLookup_cacheInsert _ _ _ _ _ hw with ⟨hk, hv⟩ | hold
    · subst hk; subst hv; rfl
    · exact h k w hold

theorem is_chat_between_preserves_getid (s : ChatsState) (a b : Nat)
    (h : GetIdCacheOK s) : GetIdCacheOK (is_chat_between s a b).2 := by
  unfold is_chat_between
  split
  · exact h
  · intro k w hw
    exact h k w hw

theorem get_chat_id_rows (s : ChatsState) (a b : Nat) :
    ((get_chat_id_by_users_ids s a b).2).rows = s.rows := by
  unfold get_chat_id_by_users_ids
  split
  · rfl
  · split
    · rfl
    · split <;> rfl

theorem get_chat_id_cacheIsBetween (s : ChatsState) (a b : Nat) :
    ((get_chat_id_by_users_ids s a b).2).cacheIsBetween = s.cacheIsBetween := by
  unfold get_chat_id_by_users_ids
  split
  · rfl
  · split
    · rfl
    · split <;> rfl

theorem get_chat_id_fst (s : ChatsState) (a b : Nat) (h : GetIdCacheOK s) :
    (get_chat_id_by_users_ids s a b).1 = getIdSpec s.rows a b := by
  unfold get_chat_id_by_users_ids
  split
  · next cid hc => exact (h (a, b) cid hc).symm
  · unfold getIdSpec
    cases hq : chatIdQuery s.rows (sortPair a b).1 (sortPair a b).2 with
    | none => simp only [hq]
    | some cid =>
      simp only [hq]
      by_cases h0 : cid = 0 <;> simp [h0]

theorem get_chat_id_preserves_getid (s : ChatsState) (a b : Nat)
    (h : GetIdCacheOK s) : GetIdCacheOK (get_chat_id_by_users_ids s a b).2 := by
  unfold get_chat_id_by_users_ids
  split
  · exact h
  · split
    · exact h
    · split
      · exact h
      · next cid hq h0 =>
        intro k w hw
        rcases cacheLookup_cacheInsert _ _ _ _ _ hw with ⟨hk, hv⟩ | hold
        · subst hk; subst hv
          unfold getIdSpec
          simp only [hq]
          rw [if_neg h0]
        · exact h k w hold

theorem get_chat_id_preserves_isbetween (s : ChatsState) (a b : Nat)
    (h : IsBetweenCacheOK s) : IsBetweenCacheOK (get_chat_id_by_users_ids s a b).2 := by
  unfold get_chat_id_by_users_ids
  split
  · exact h
  · split
    · exact h
    · split
      · exact h
      · intro k w hw
        exact h k w hw

/-! ### Query lemmas about appending and removing rows -/

theorem chatIdQuery_append_some (rows l : List ChatRow) (u1 u2 cid : Nat)
    (h : chatIdQuery rows u1 u2 = some cid) :
    chatIdQuery (rows ++ l) u1 u2 = some cid := by
  unfold chatIdQuery at h ⊢
  rw [List.find?_append]
  cases hf : rows.find? fun r => r.user1_id == u1 && r.user2_id == u2 with
  | none => rw [hf] at h; simp at h
  | some r =>
    rw [hf] at h
    simpa [Option.or] using h

theorem getIdSpec_append_ok (rows l : List ChatRow) (a b v : Nat)
    (h : getIdSpec rows a b = .ok v) : getIdSpec (rows ++ l) a b = .ok v := by
  unfold getIdSpec at h ⊢
  cases hq : chatIdQuery rows (sortPair a b).1 (sortPair a b).2 with
  | none => rw [hq] at h; simp at h
  | some cid =>
    rw [hq] at h
    rw [chatIdQuery_append_some rows l _ _ cid hq]
    exact h

theorem chatExistsQuery_false_imp_none (rows : List ChatRow) (u1 u2 : Nat)
    (h : chatExistsQuery rows u1 u2 = false) : chatIdQuery rows u1 u2 = none := by
  induction rows with
  | nil => rfl
  | cons r rest ih =>
    unfold chatExistsQuery at h
    rw [List.any_cons, Bool.or_eq_false_iff] at h
    unfold chatIdQuery
    rw [List.find?_cons_of_neg]
    · exact ih h.2
    · simp [h.1]

theorem chatExistsQuery_append_row (rows : List ChatRow) (i u1 u2 : Nat) :
    chatExistsQuery (rows ++ [⟨i, u1, u2⟩]) u1 u2 = true := by
  unfold chatExistsQuery
  rw [List.any_append]
  simp

theorem chatIdQuery_append_none (rows : List ChatRow) (i u1 u2 : Nat)
    (h : chatIdQuery rows u1 u2 = none) :
    chatIdQuery (rows ++ [⟨i, u1, u2⟩]) u1 u2 = some i := by
  unfold chatIdQuery at h ⊢
  rw [List.find?_append]
  cases hf : rows.find? fun r => r.user1_id == u1 && r.user2_id == u2 with
  | none => simp [Option.or, List.find?]
  | some r => rw [hf] at h; simp at h

/-! ### Characterization of `create_chat` -/

theorem newChatId_fresh (rows : List ChatRow) (r : ChatRow) (hr : r ∈ rows) :
    r.chat_id < newChatId rows := by
  unfold newChatId
  induction rows with
  | nil => cases hr
  | cons hd tl ih =>
    rw [List.mem_cons] at hr
    simp only [List.foldr_cons]
    rcases hr with rfl | hmem
    · have h1 := Nat.le_max_left r.chat_id (tl.foldr (fun r m => max r.chat_id m) 0)
      omega
    · have h1 := ih hmem
      have h2 := Nat.le_max_right hd.chat_id (tl.foldr (fun r m => max r.chat_id m) 0)
      omega

theorem create_chat_ok (s : ChatsState) (a b : Nat) (hB : IsBetweenCacheOK s)
    (hno : isBetweenSpec s.rows a b = false) :
    create_chat s a b =
      (.ok (), ⟨s.rows ++ [⟨newChatId s.rows, (sortPair a b).1, (sortPair a b).2⟩],
                [], s.cacheGetId⟩) := by
  have h1 : (is_chat_between s (sortPair a b).1 (sortPair a b).2).1 = false := by
    rw [is_chat_between_fst _ _ _ hB]
    unfold isBetweenSpec
    rw [sortPair_idem]
    exact hno
  unfold create_chat
  simp only [h1, if_pos]
  rw [Prod.mk.injEq]
  refine ⟨rfl, ?_⟩
  rw [is_chat_between_rows]
  rw [is_chat_between_cacheGetId]

theorem create_chat_exists (s : ChatsState) (a b : Nat) (hB : IsBetweenCacheOK s)
    (hyes : isBetweenSpec s.rows a b = true) :
    create_chat s a b =
      (.error .ChatAlreadyExistsError,
       (is_chat_between s (sortPair a b).1 (sortPair a b).2).2) := by
  have h1 : (is_chat_between s (sortPair a b).1 (sortPair a b).2).1 = true := by
    rw [is_chat_between_fst _ _ _ hB]
    unfold isBetweenSpec
    rw [sortPair_idem]
    exact hyes
  unfold create_chat
  simp only [h1]
  rfl

theorem create_chat_preserves (s : ChatsState) (a b : Nat) (h : CachesOK s) :
    CachesOK (create_chat s a b).2 := by
  by_cases hv : isBetweenSpec s.rows a b = false
  · rw [create_chat_ok s a b h.1 hv]
    constructor
    · intro k v hk
      simp [cacheLookup] at hk
    · intro k v hk
      exact getIdSpec_append_ok _ _ _ _ _ (h.2 k v hk)
  · have hyes : isBetweenSpec s.rows a b = true := by
      revert hv; cases isBetweenSpec s.rows a b <;> simp
    rw [create_chat_exists s a b h.1 hyes]
    exact ⟨is_chat_between_preserves_isbetween _ _ _ h.1,
           is_chat_between_preserves_getid _ _ _ h.2⟩

/-! ### Characterization of `delete_chat` and the reachability invariant -/

theorem cachesOK_of_empty (s : ChatsState) (h1 : s.cacheIsBetween = [])
    (h2 : s.cacheGetId = []) : CachesOK s := by
  constructor <;> intro k v hk
  · rw [h1] at hk; simp [cacheLookup] at hk
  · rw [h2] at hk; simp [cacheLookup] at hk

theorem deleteResolved_ok_caches (r : Except PyError Nat × ChatsState)
    (h : (deleteResolved r).1 = .ok ()) :
    (deleteResolved r).2.cacheIsBetween = [] ∧ (deleteResolved r).2.cacheGetId = [] := by
  obtain ⟨res, s1⟩ := r
  cases res with
  | error e => simp [deleteResolved] at h
  | ok cid => exact ⟨rfl, rfl⟩

theorem delete_chat_ok_caches (s : ChatsState) (p : Option (Nat × Nat))
    (c : Option Nat) (h : (delete_chat s p c).1 = .ok ()) :
    (delete_chat s p c).2.cacheIsBetween = [] ∧ (delete_chat s p c).2.cacheGetId = [] := by
  unfold delete_chat at h ⊢
  exact deleteResolved_ok_caches _ h

theorem deleteResolved_preserves (r : Except PyError Nat × ChatsState)
    (h : CachesOK r.2) : CachesOK (deleteResolved r).2 := by
  obtain ⟨res, s1⟩ := r
  cases res with
  | error e => exact h
  | ok cid => exact cachesOK_of_empty _ rfl rfl

theorem resolveChatId_preserves (s : ChatsState) (p : Option (Nat × Nat))
    (h : CachesOK s) : CachesOK (resolveChatId s p).2 := by
  cases p with
  | none => exact h
  | some ab =>
    obtain ⟨a, b⟩ := ab
    exact ⟨get_chat_id_preserves_isbetween _ _ _ h.1,
           get_chat_id_preserves_getid _ _ _ h.2⟩

theorem delete_chat_preserves (s : ChatsState) (p : Option (Nat × Nat))
    (c : Option Nat) (h : CachesOK s) : CachesOK (delete_chat s p c).2 := by
  unfold delete_chat
  apply deleteResolved_preserves
  cases c with
  | none => exact resolveChatId_preserves s p h
  | some cid =>
    show CachesOK (if cid = 0 then resolveChatId s p else (Except.ok cid, s)).2
    by_cases h0 : cid = 0
    · rw [if_pos h0]
      exact resolveChatId_preserves s p h
    · rw [if_neg h0]
      exact h

/-- Every reachable state has both memoization caches agreeing with the table:
the repository never caches a value that an uncached query would contradict. -/
theorem reachable_cachesOK (s : ChatsState) (h : Reachable s) : CachesOK s := by
  induction h with
  | init => exact cachesOK_of_empty _ rfl rfl
  | step_is_chat_between s a b _ ih =>
    exact ⟨is_chat_between_preserves_isbetween _ _ _ ih.1,
           is_chat_between_preserves_getid _ _ _ ih.2⟩
  | step_get_chat_id s a b _ ih =>
    exact ⟨get_chat_id_preserves_isbetween _ _ _ ih.1,
           get_chat_id_preserves_getid _ _ _ ih.2⟩
  | step_create_chat s a b _ ih => exact create_chat_preserves _ _ _ ih
  | step_delete_chat s p c _ ih => exact delete_chat_preserves _ _ _ ih

theorem reads_agree_of_cachesOK (s : ChatsState) (h : CachesOK s) (x y : Nat) :
    (is_chat_between s x y).1 = isBetweenSpec s.rows x y ∧
    (get_chat_id_by_users_ids s x y).1 = getIdSpec s.rows x y :=
  ⟨is_chat_between_fst _ _ _ h.1, get_chat_id_fst _ _ _ h.2⟩

/-- A completed, successful mutation of the chats store: either a successful
`create_chat` or a successful `delete_chat`, taking state `s` to state `s'`. -/
def MutationStep (s s' : ChatsState) : Prop :=
  (∃ a b, create_chat s a b = (Except.ok (), s')) ∨
  (∃ p c, delete_chat s p c = (Except.ok (), s'))

/-- C1: after every successful mutation of the chats store (`create_chat` or
`delete_chat`) completes, neither memoized read can disagree with the
underlying table: for every argument pair, the next `is_chat_between` and the
next `get_chat_id_by_users_ids` return exactly what an uncached query over the
resulting table returns. -/
theorem chat_caches_never_stale_after_mutation (s s' : ChatsState)
    (hs : Reachable s) (hmut : MutationStep s s') :
    ∀ x y, (is_chat_between s' x y).1 = isBetweenSpec s'.rows x y ∧
           (get_chat_id_by_users_ids s' x y).1 = getIdSpec s'.rows x y := by
  have hs' : Reachable s' := by
    rcases hmut with ⟨a, b, hab⟩ | ⟨p, c, hpc⟩
    · have h := Reachable.step_create_chat s a b hs
      rwa [hab] at h
    · have h := Reachable.step_delete_chat s p c hs
      rwa [hpc] at h
  intro x y
  exact reads_agree_of_cachesOK s' (reachable_cachesOK s' hs') x y

/-- Witness for C1 at a concrete input: starting from the empty state, create
the chat (1, 2); afterwards both memoized reads at the pair (2, 1) agree with
the uncached queries. -/
theorem chat_caches_never_stale_after_mutation_witness :
    (is_chat_between ⟨[⟨1, 1, 2⟩], [], []⟩ 2 1).1 = isBetweenSpec [⟨1, 1, 2⟩] 2 1 ∧
    (get_chat_id_by_users_ids ⟨[⟨1, 1, 2⟩], [], []⟩ 2 1).1 = getIdSpec [⟨1, 1, 2⟩] 2 1 :=
  chat_caches_never_stale_after_mutation initialChatsState ⟨[⟨1, 1, 2⟩], [], []⟩
    Reachable.init (Or.inl ⟨1, 2, rfl⟩) 2 1

/-- C2 counterexample: a successful `create_chat` does not clear the
`get_chat_id_by_users_ids` cache.  Concretely: from the empty state, create
chat (1, 2), read `get_chat_id_by_users_ids(1, 2)` (which populates its cache),
then successfully create chat (1, 3); the id cache is still nonempty. -/
theorem create_chat_keeps_get_id_cache_cx :
    (create_chat ((get_chat_id_by_users_ids (create_chat initialChatsState 1 2).2 1 2).2) 1 3).1
      = Except.ok () ∧
    (create_chat ((get_chat_id_by_users_ids (create_chat initialChatsState 1 2).2 1 2).2) 1 3).2.cacheGetId
      ≠ [] := by
  constructor
  · rfl
  · decide

/-- C2 (amended): every successful `delete_chat` clears both memoization
caches, but a successful `create_chat` clears only the `is_chat_between`
cache — the `get_chat_id_by_users_ids` cache is left exactly as it was. -/
theorem mutation_cache_invalidation (s s' : ChatsState) :
    (∀ a b, create_chat s a b = (Except.ok (), s') →
       s'.cacheIsBetween = [] ∧ s'.cacheGetId = s.cacheGetId) ∧
    (∀ p c, delete_chat s p c = (Except.ok (), s') →
       s'.cacheIsBetween = [] ∧ s'.cacheGetId = []) := by
  constructor
  · intro a b hab
    simp only [create_chat] at hab
    split at hab
    · rw [Prod.mk.injEq] at hab
      obtain ⟨-, hs'⟩ := hab
      subst hs'
      exact ⟨rfl, is_chat_between_cacheGetId s _ _⟩
    · rw [Prod.mk.injEq] at hab
      obtain ⟨h, -⟩ := hab
      exact absurd h (by simp)
  · intro p c hpc
    have h1 : (delete_chat s p c).1 = Except.ok () := by rw [hpc]
    have h2 := delete_chat_ok_caches s p c h1
    rwa [hpc] at h2

/-- Witness for C2 (amended) at a concrete input: creating chat (1, 2) from
the empty state clears the existence cache and leaves the (empty) id cache. -/
theorem mutation_cache_invalidation_witness :
    (⟨[⟨1, 1, 2⟩], [], []⟩ : ChatsState).cacheIsBetween = [] ∧
    (⟨[⟨1, 1, 2⟩], [], []⟩ : ChatsState).cacheGetId = initialChatsState.cacheGetId :=
  (mutation_cache_invalidation initialChatsState ⟨[⟨1, 1, 2⟩], [], []⟩).1 1 2 rfl

/-- C3: for two distinct user ids with no chat between them, `create_chat(a,b)`
succeeds and inserts the ascending-sorted pair; a subsequent `create_chat(b,a)`
raises `ChatAlreadyExistsError` and inserts nothing; afterwards
`is_chat_between(a,b)` and `is_chat_between(b,a)` both return `true`. -/
theorem create_chat_symmetric_pair (s : ChatsState) (a b : Nat) (hs : Reachable s)
    (hab : a ≠ b) (hno : isBetweenSpec s.rows a b = false) :
    (create_chat s a b).1 = Except.ok () ∧
    (create_chat s a b).2.rows =
      s.rows ++ [⟨newChatId s.rows, (sortPair a b).1, (sortPair a b).2⟩] ∧
    (create_chat (create_chat s a b).2 b a).1 = Except.error PyError.ChatAlreadyExistsError ∧
    (create_chat (create_chat s a b).2 b a).2.rows = (create_chat s a b).2.rows ∧
    (is_chat_between (create_chat (create_chat s a b).2 b a).2 a b).1 = true ∧
    (is_chat_between (create_chat (create_chat s a b).2 b a).2 b a).1 = true := by
  have hOK := reachable_cachesOK s hs
  have h1 := create_chat_ok s a b hOK.1 hno
  have e2 : (create_chat s a b).2 =
      ⟨s.rows ++ [⟨newChatId s.rows, (sortPair a b).1, (sortPair a b).2⟩], [], s.cacheGetId⟩ := by
    rw [h1]
  have hs1 : Reachable (create_chat s a b).2 := Reachable.step_create_chat s a b hs
  have hOK1 := reachable_cachesOK _ hs1
  have hyes : isBetweenSpec (create_chat s a b).2.rows b a = true := by
    rw [e2]
    unfold isBetweenSpec
    rw [sortPair_comm]
    exact chatExistsQuery_append_row s.rows (newChatId s.rows) _ _
  have h2 := create_chat_exists (create_chat s a b).2 b a hOK1.1 hyes
  have f2 : (create_chat (create_chat s a b).2 b a).2 =
      (is_chat_between (create_chat s a b).2 (sortPair b a).1 (sortPair b a).2).2 := by
    rw [h2]
  have hs2 : Reachable (create_chat (create_chat s a b).2 b a).2 :=
    Reachable.step_create_chat _ b a hs1
  have hOK2 := reachable_cachesOK _ hs2
  have hrows2 : (create_chat (create_chat s a b).2 b a).2.rows = (create_chat s a b).2.rows := by
    rw [f2, is_chat_between_rows]
  refine ⟨by rw [h1], by rw [e2], by rw [h2], hrows2, ?_, ?_⟩
  · rw [is_chat_between_fst _ _ _ hOK2.1, hrows2]
    rw [e2]
    unfold isBetweenSpec
    exact chatExistsQuery_append_row s.rows (newChatId s.rows) _ _
  · rw [is_chat_between_fst _ _ _ hOK2.1, hrows2]
    exact hyes

/-- Witness for C3 at a concrete input: from the empty state with the
unsorted pair (2, 1). -/
theorem create_chat_symmetric_pair_witness :
    (create_chat initialChatsState 2 1).1 = Except.ok () ∧
    (create_chat initialChatsState 2 1).2.rows =
      initialChatsState.rows ++
        [⟨newChatId initialChatsState.rows, (sortPair 2 1).1, (sortPair 2 1).2⟩] ∧
    (create_chat (create_chat initialChatsState 2 1).2 1 2).1
      = Except.error PyError.ChatAlreadyExistsError ∧
    (create_chat (create_chat initialChatsState 2 1).2 1 2).2.rows
      = (create_chat initialChatsState 2 1).2.rows ∧
    (is_chat_between (create_chat (create_chat initialChatsState 2 1).2 1 2).2 2 1).1 = true ∧
    (is_chat_between (create_chat (create_chat initialChatsState 2 1).2 1 2).2 1 2).1 = true :=
  create_chat_symmetric_pair initialChatsState 2 1 Reachable.init (by decide) (by decide)

/-- When the table cannot answer the pair query and the cache is coherent,
`get_chat_id_by_users_ids` raises `ChatNotFoundByIndexesError` and leaves the
state untouched (exceptions are never memoized). -/
theorem get_chat_id_not_found (s : ChatsState) (a b : Nat) (hOKg : GetIdCacheOK s)
    (hq : chatIdQuery s.rows (sortPair a b).1 (sortPair a b).2 = none) :
    get_chat_id_by_users_ids s a b = (.error .ChatNotFoundByIndexesError, s) := by
  unfold get_chat_id_by_users_ids
  split
  · next v hc =>
    have h2 := hOKg (a, b) v hc
    unfold getIdSpec at h2
    rw [hq] at h2
    cases h2
  · split
    · rfl
    · next cid hq2 =>
      rw [hq] at hq2
      cases hq2

/-- C6: `delete_chat` on a pair with no chat raises `ChatNotFoundByIndexesError`
and changes nothing; after a successful `create_chat` followed by a successful
`delete_chat` of the same pair, `is_chat_between` returns `false` and
`get_chat_id_by_users_ids` raises `ChatNotFoundByIndexesError`. -/
theorem delete_chat_not_found_and_cycle (s : ChatsState) (a b : Nat)
    (hs : Reachable s) (hab : a ≠ b) (hno : isBetweenSpec s.rows a b = false) :
    delete_chat s (some (a, b)) none = (Except.error PyError.ChatNotFoundByIndexesError, s) ∧
    (create_chat s a b).1 = Except.ok () ∧
    (delete_chat (create_chat s a b).2 (some (a, b)) none).1 = Except.ok () ∧
    (is_chat_between (delete_chat (create_chat s a b).2 (some (a, b)) none).2 a b).1 = false ∧
    (get_chat_id_by_users_ids (delete_chat (create_chat s a b).2 (some (a, b)) none).2 a b).1
      = Except.error PyError.ChatNotFoundByIndexesError := by
  have hOK := reachable_cachesOK s hs
  have hqnone : chatIdQuery s.rows (sortPair a b).1 (sortPair a b).2 = none :=
    chatExistsQuery_false_imp_none s.rows _ _ hno
  have hget := get_chat_id_not_found s a b hOK.2 hqnone
  have part1 : delete_chat s (some (a, b)) none
      = (Except.error PyError.ChatNotFoundByIndexesError, s) := by
    show deleteResolved (get_chat_id_by_users_ids s a b) = _
    rw [hget]
    rfl
  have h1 := create_chat_ok s a b hOK.1 hno
  have e2 : (create_chat s a b).2 =
      ⟨s.rows ++ [⟨newChatId s.rows, (sortPair a b).1, (sortPair a b).2⟩], [], s.cacheGetId⟩ := by
    rw [h1]
  have hlookup : cacheLookup (create_chat s a b).2.cacheGetId (a, b) = none := by
    rw [e2]
    cases hc : cacheLookup s.cacheGetId (a, b) with
    | none => rfl
    | some v =>
      have h2 := hOK.2 (a, b) v hc
      unfold getIdSpec at h2
      rw [hqnone] at h2
      cases h2
  have hq1 : chatIdQuery (create_chat s a b).2.rows (sortPair a b).1 (sortPair a b).2
      = some (newChatId s.rows) := by
    rw [e2]
    exact chatIdQuery_append_none s.rows (newChatId s.rows) _ _ hqnone
  have hnz : newChatId s.rows ≠ 0 := Nat.succ_ne_zero _
  have hres : get_chat_id_by_users_ids (create_chat s a b).2 a b =
      (.ok (newChatId s.rows),
       { (create_chat s a b).2 with
         cacheGetId := cacheInsert (create_chat s a b).2.cacheGetId (a, b) (newChatId s.rows) }) := by
    unfold get_chat_id_by_users_ids
    simp only [hlookup, hq1, if_neg hnz]
  have hfilter : ((create_chat s a b).2.rows.filter (fun r => r.chat_id != newChatId s.rows))
      = s.rows := by
    rw [e2]
    show ((s.rows ++ [(⟨newChatId s.rows, (sortPair a b).1, (sortPair a b).2⟩ : ChatRow)]).filter
          (fun r => r.chat_id != newChatId s.rows)) = s.rows
    rw [List.filter_append]
    have h5 : s.rows.filter (fun r => r.chat_id != newChatId s.rows) = s.rows :=
      List.filter_eq_self.mpr (fun r hr => by
        have h6 := newChatId_fresh s.rows r hr
        simp only [bne_iff_ne, ne_eq]
        omega)
    rw [h5]
    simp
  have hdel : delete_chat (create_chat s a b).2 (some (a, b)) none
      = (.ok (), ⟨s.rows, [], []⟩) := by
    show deleteResolved (get_chat_id_by_users_ids (create_chat s a b).2 a b) = _
    rw [hres]
    show (Except.ok (),
          (⟨(create_chat s a b).2.rows.filter (fun r => r.chat_id != newChatId s.rows),
            [], []⟩ : ChatsState)) = _
    rw [hfilter]
  have e3 : (delete_chat (create_chat s a b).2 (some (a, b)) none).2
      = ⟨s.rows, [], []⟩ := by rw [hdel]
  have hOK3 : CachesOK (⟨s.rows, [], []⟩ : ChatsState) := cachesOK_of_empty _ rfl rfl
  refine ⟨part1, by rw [h1], by rw [hdel], ?_, ?_⟩
  · rw [e3, is_chat_between_fst _ _ _ hOK3.1]
    exact hno
  · rw [e3, get_chat_id_fst _ _ _ hOK3.2]
    unfold getIdSpec
    rw [hqnone]

/-- Witness for C6 at a concrete input: the pair (1, 2) from the empty state. -/
theorem delete_chat_not_found_and_cycle_witness :
    delete_chat initialChatsState (some (1, 2)) none
      = (Except.error PyError.ChatNotFoundByIndexesError, initialChatsState) ∧
    (create_chat initialChatsState 1 2).1 = Except.ok () ∧
    (delete_chat (create_chat initialChatsState 1 2).2 (some (1, 2)) none).1 = Except.ok () ∧
    (is_chat_between (delete_chat (create_chat initialChatsState 1 2).2 (some (1, 2)) none).2 1 2).1
      = false ∧
    (get_chat_id_by_users_ids
      (delete_chat (create_chat initialChatsState 1 2).2 (some (1, 2)) none).2 1 2).1
      = Except.error PyError.ChatNotFoundByIndexesError :=
  delete_chat_not_found_and_cycle initialChatsState 1 2 Reachable.init (by decide) (by decide)

/-- C10 counterexample: the chat id `0` does not exist in the chats table (the
table is empty here), yet `delete_chat(chat_id=0)` raises: Python's
`chat_id or …` treats `0` as not-given and falls back to unpacking
`two_users_ids = None`, a `TypeError`. -/
theorem delete_chat_zero_id_cx :
    delete_chat initialChatsState none (some 0)
      = (Except.error PyError.TypeErrorStarNone, initialChatsState) ∧
    ∀ r ∈ initialChatsState.rows, r.chat_id ≠ 0 := by
  constructor
  · rfl
  · intro r hr
    cases hr

/-- C10 (amended): `delete_chat` with an explicit nonzero `chat_id` absent
from the chats table completes without raising (`NotFound` arises only on the
pair-resolution path), deletes nothing, and still clears both memoization
caches; the falsy id `0` instead falls back to pair resolution. -/
theorem delete_chat_missing_id (s : ChatsState) (p : Option (Nat × Nat)) (cid : Nat)
    (h0 : cid ≠ 0) (habs : ∀ r ∈ s.rows, r.chat_id ≠ cid) :
    (delete_chat s p (some cid)).1 = Except.ok () ∧
    (delete_chat s p (some cid)).2.rows = s.rows ∧
    (delete_chat s p (some cid)).2.cacheIsBetween = [] ∧
    (delete_chat s p (some cid)).2.cacheGetId = [] := by
  have hd : delete_chat s p (some cid)
      = (.ok (), ⟨s.rows.filter (fun r => r.chat_id != cid), [], []⟩) := by
    show deleteResolved (if cid = 0 then resolveChatId s p else (Except.ok cid, s)) = _
    rw [if_neg h0]
    rfl
  have hf : s.rows.filter (fun r => r.chat_id != cid) = s.rows :=
    List.filter_eq_self.mpr (fun r hr => by
      simp only [bne_iff_ne, ne_eq]
      exact habs r hr)
  refine ⟨by rw [hd], ?_, by rw [hd], by rw [hd]⟩
  rw [hd]
  exact hf

/-- Witness for C10 (amended) at a concrete input: table holding only chat 1,
deleting the absent chat id 5. -/
theorem delete_chat_missing_id_witness :
    (delete_chat ⟨[⟨1, 1, 2⟩], [], []⟩ none (some 5)).1 = Except.ok () ∧
    (delete_chat ⟨[⟨1, 1, 2⟩], [], []⟩ none (some 5)).2.rows
      = (⟨[⟨1, 1, 2⟩], [], []⟩ : ChatsState).rows ∧
    (delete_chat ⟨[⟨1, 1, 2⟩], [], []⟩ none (some 5)).2.cacheIsBetween = [] ∧
    (delete_chat ⟨[⟨1, 1, 2⟩], [], []⟩ none (some 5)).2.cacheGetId = [] :=
  delete_chat_missing_id ⟨[⟨1, 1, 2⟩], [], []⟩ none 5 (by decide) (by decide)

/-! ### Users and signed tokens -/

/-- A row of the `users` table (`User` model in
`app/authentication/models.py`). -/
structure User where
  user_id : Nat
  username : String
  email : String
  name : String
  password_hash : String
deriving DecidableEq, Repr

/-- The application configuration entries the token code reads. -/
structure AppConfig where
  SECRET_KEY : String
  PASSWORD_DEFAULT_EXPIRES_IN : Nat
  AUTHENTICATION_TOKEN_DEFAULT_EXPIRES_IN : Nat
deriving DecidableEq, Repr

/-- Modelled from the spec: the opaque signed strings produced by the external
`itsdangerous.TimedJSONWebSignatureSerializer` (the library itself is outside
the repository).  A token is either a well-formed signature over the payload
`{user_id}` made with some secret at some issue time with some expiration
window, or a structurally corrupted string whose signature cannot verify. -/
inductive Token where
  | signed (secret : String) (user_id : Nat) (issued_at : Nat) (expires_in : Nat)
  | corrupted (raw : String)
deriving DecidableEq, Repr

/-- Modelled from the spec: `TimedJSONWebSignatureSerializer(secret, expires_in)
.dumps({'user_id': uid})` at time `now`. -/
def serializer_dumps (secret : String) (expires_in : Nat) (user_id now : Nat) : Token :=
  Token.signed secret user_id now expires_in

/-- Modelled from the spec: `TimedJSONWebSignatureSerializer(secret)
.loads(token)['user_id']` at time `now`.  A wrong or corrupted signature
raises `BadSignature`; a valid signature whose expiration instant lies in the
past raises `SignatureExpired`; otherwise the stored user id is returned. -/
def serializer_loads (secret : String) (t : Token) (now : Nat) : Except PyError Nat :=
  match t with
  | .corrupted _ => .error .BadSignature
  | .signed sk uid issued_at expires_in =>
    if sk ≠ secret then .error .BadSignature
    else if issued_at + expires_in < now then .error .SignatureExpired
    else .ok uid

/-- `User.get_user_by_id`: primary-key lookup raising
`UserNotFoundByIndexError` when no row matches. -/
def get_user_by_id (users : List User) (uid : Nat) : Except PyError User :=
  match users.find? (fun u => u.user_id == uid) with
  | none => .error .UserNotFoundByIndexError
  | some u => .ok u

/-- `if not expiration_period:` — Python truthiness: `None` and `0` both fall
back to the configured default window. -/
def effective_expiration (dflt : Nat) (e : Option Nat) : Nat :=
  match e with
  | none => dflt
  | some n => if n = 0 then dflt else n

/-- `User.get_reset_password_token(expiration_period=None)`: sign `{user_id}`
with the app secret, defaulting the window to `PASSWORD_DEFAULT_EXPIRES_IN`. -/
def get_reset_password_token (cfg : AppConfig) (u : User) (now : Nat)
    (expiration_period : Option Nat) : Token :=
  serializer_dumps cfg.SECRET_KEY
    (effective_expiration cfg.PASSWORD_DEFAULT_EXPIRES_IN expiration_period) u.user_id now

/-- `User.get_user_by_reset_password_token(token)`: deserialize with the app
secret, then fetch the stored user id. -/
def get_user_by_reset_password_token (cfg : AppConfig) (users : List User)
    (t : Token) (now : Nat) : Except PyError User :=
  match serializer_loads cfg.SECRET_KEY t now with
  | .error e => .error e
  | .ok uid => get_user_by_id users uid

/-- `User.get_authentication_token(expires_in=None)`: sign `{user_id}` with
the app secret, defaulting the window to
`AUTHENTICATION_TOKEN_DEFAULT_EXPIRES_IN`. -/
def get_authentication_token (cfg : AppConfig) (u : User) (now : Nat)
    (expires_in : Option Nat) : Token :=
  serializer_dumps cfg.SECRET_KEY
    (effective_expiration cfg.AUTHENTICATION_TOKEN_DEFAULT_EXPIRES_IN expires_in) u.user_id now

/-- `User.get_user_by_authentication_token(token)`: deserialize with the app
secret, then fetch the stored user id. -/
def get_user_by_authentication_token (cfg : AppConfig) (users : List User)
    (t : Token) (now : Nat) : Except PyError User :=
  match serializer_loads cfg.SECRET_KEY t now with
  | .error e => .error e
  | .ok uid => get_user_by_id users uid

/-! ### Token verification lemmas -/

theorem reset_verify_signed_ok (cfg : AppConfig) (users : List User) (u : User)
    (now exp : Nat) (hu : users.find? (fun v => v.user_id == u.user_id) = some u) :
    get_user_by_reset_password_token cfg users
      (Token.signed cfg.SECRET_KEY u.user_id now exp) now = .ok u := by
  have hl : serializer_loads cfg.SECRET_KEY
      (Token.signed cfg.SECRET_KEY u.user_id now exp) now = .ok u.user_id := by
    simp only [serializer_loads]
    rw [if_neg (by simp), if_neg (by omega)]
  unfold get_user_by_reset_password_token
  rw [hl]
  show get_user_by_id users u.user_id = Except.ok u
  unfold get_user_by_id
  rw [hu]

theorem auth_verify_signed_ok (cfg : AppConfig) (users : List User) (u : User)
    (now exp : Nat) (hu : users.find? (fun v => v.user_id == u.user_id) = some u) :
    get_user_by_authentication_token cfg users
      (Token.signed cfg.SECRET_KEY u.user_id now exp) now = .ok u := by
  have hl : serializer_loads cfg.SECRET_KEY
      (Token.signed cfg.SECRET_KEY u.user_id now exp) now = .ok u.user_id := by
    simp only [serializer_loads]
    rw [if_neg (by simp), if_neg (by omega)]
  unfold get_user_by_authentication_token
  rw [hl]
  show get_user_by_id users u.user_id = Except.ok u
  unfold get_user_by_id
  rw [hu]

theorem reset_verify_signed_expired (cfg : AppConfig) (users : List User)
    (uid now exp later : Nat) (hlt : now + exp < later) :
    get_user_by_reset_password_token cfg users
      (Token.signed cfg.SECRET_KEY uid now exp) later = .error .SignatureExpired := by
  have hl : serializer_loads cfg.SECRET_KEY
      (Token.signed cfg.SECRET_KEY uid now exp) later = .error .SignatureExpired := by
    simp only [serializer_loads]
    rw [if_neg (by simp), if_pos (by omega)]
  unfold get_user_by_reset_password_token
  rw [hl]

theorem auth_verify_signed_expired (cfg : AppConfig) (users : List User)
    (uid now exp later : Nat) (hlt : now + exp < later) :
    get_user_by_authentication_token cfg users
      (Token.signed cfg.SECRET_KEY uid now exp) later = .error .SignatureExpired := by
  have hl : serializer_loads cfg.SECRET_KEY
      (Token.signed cfg.SECRET_KEY uid now exp) later = .error .SignatureExpired := by
    simp only [serializer_loads]
    rw [if_neg (by simp), if_pos (by omega)]
  unfold get_user_by_authentication_token
  rw [hl]

/-- C4: issuing either class of token for a stored user and verifying it
immediately returns that user; verifying after the (effective) expiration
window elapses fails with `SignatureExpired`; verifying a structurally
corrupted token fails with `BadSignature`; and the two failure kinds are
distinct. -/
theorem token_round_trip (cfg : AppConfig) (users : List User) (u : User)
    (now later : Nat) (e : Option Nat)
    (hu : users.find? (fun v => v.user_id == u.user_id) = some u) :
    get_user_by_reset_password_token cfg users
      (get_reset_password_token cfg u now e) now = .ok u ∧
    get_user_by_authentication_token cfg users
      (get_authentication_token cfg u now e) now = .ok u ∧
    (now + effective_expiration cfg.PASSWORD_DEFAULT_EXPIRES_IN e < later →
      get_user_by_reset_password_token cfg users
        (get_reset_password_token cfg u now e) later = .error PyError.SignatureExpired) ∧
    (now + effective_expiration cfg.AUTHENTICATION_TOKEN_DEFAULT_EXPIRES_IN e < later →
      get_user_by_authentication_token cfg users
        (get_authentication_token cfg u now e) later = .error PyError.SignatureExpired) ∧
    (∀ raw t, get_user_by_reset_password_token cfg users (Token.corrupted raw) t
        = .error PyError.BadSignature) ∧
    (∀ raw t, get_user_by_authentication_token cfg users (Token.corrupted raw) t
        = .error PyError.BadSignature) ∧
    PyError.SignatureExpired ≠ PyError.BadSignature := by
  refine ⟨reset_verify_signed_ok cfg users u now _ hu,
          auth_verify_signed_ok cfg users u now _ hu,
          fun hlt => reset_verify_signed_expired cfg users u.user_id now _ later hlt,
          fun hlt => auth_verify_signed_expired cfg users u.user_id now _ later hlt,
          fun raw t => rfl,
          fun raw t => rfl,
          by simp⟩

/-- A concrete application configuration for witnesses. -/
def cfg0 : AppConfig := ⟨"s3cr3t", 3600, 600⟩

/-- A concrete user row for witnesses. -/
def user1rec : User := ⟨1, "user1", "user1@gmail.com", "name1", "hash1"⟩

/-- Witness for C4 at a concrete input: immediate verification succeeds and
verification 3990 seconds after expiry fails with `SignatureExpired`. -/
theorem token_round_trip_witness :
    get_user_by_reset_password_token cfg0 [user1rec]
      (get_reset_password_token cfg0 user1rec 10 none) 10 = .ok user1rec ∧
    get_user_by_reset_password_token cfg0 [user1rec]
      (get_reset_password_token cfg0 user1rec 10 none) 4000
      = .error PyError.SignatureExpired :=
  ⟨(token_round_trip cfg0 [user1rec] user1rec 10 4000 none rfl).1,
   (token_round_trip cfg0 [user1rec] user1rec 10 4000 none rfl).2.2.1 (by decide)⟩

/-- C9: the two token classes are interchangeable — both sign the identical
payload `{user_id}` with the same application secret, so a reset-password
token verifies through the authentication verifier and vice versa, returning
the same user. -/
theorem token_classes_interchangeable (cfg : AppConfig) (users : List User)
    (u : User) (now : Nat) (e : Option Nat)
    (hu : users.find? (fun v => v.user_id == u.user_id) = some u) :
    get_user_by_authentication_token cfg users
      (get_reset_password_token cfg u now e) now = .ok u ∧
    get_user_by_reset_password_token cfg users
      (get_authentication_token cfg u now e) now = .ok u :=
  ⟨auth_verify_signed_ok cfg users u now _ hu,
   reset_verify_signed_ok cfg users u now _ hu⟩

/-- Witness for C9 at a concrete input. -/
theorem token_classes_interchangeable_witness :
    get_user_by_authentication_token cfg0 [user1rec]
      (get_reset_password_token cfg0 user1rec 10 none) 10 = .ok user1rec ∧
    get_user_by_reset_password_token cfg0 [user1rec]
      (get_authentication_token cfg0 user1rec 10 none) 10 = .ok user1rec :=
  token_classes_interchangeable cfg0 [user1rec] user1rec 10 none rfl

/-! ### Validators and the web views -/

/-- Modelled from the spec: `validate_equal_passwords` from
`app/authentication/validators.py` (the validators module is not among the
provided sources).  It raises `ValidationError` with the message the
repository's tests check for when the two password fields differ. -/
def validate_equal_passwords (p1 p2 : String) : Except String Unit :=
  if p1 = p2 then .ok () else .error "Given passwords do not match"

/-- Modelled from the spec: the spec requires a minimum password length
without fixing the bound; the bound's value is irrelevant to the claims
proved here. -/
def PASSWORD_MIN_LENGTH : Nat := 8

/-- Modelled from the spec: `validate_password_length` raises
`ValidationError` when the password is shorter than the minimum. -/
def validate_password_length (p : String) : Except String Unit :=
  if PASSWORD_MIN_LENGTH ≤ p.length then .ok () else .error "The password is too short"

/-- Modelled from the spec: `validate_email` checks the e-mail format,
raising `ValidationError` on a malformed address. -/
def validate_email (email : String) : Except String Unit :=
  if email.contains '@' then .ok () else .error "Invalid email address"

/-- Modelled from the spec: `validate_length(value, min, max, error_message)`
raises `ValidationError` with the given message when the length is out of
bounds. -/
def validate_length (value : String) (min_len max_len : Nat)
    (error_message : String) : Except String Unit :=
  if min_len ≤ value.length ∧ value.length ≤ max_len then .ok () else .error error_message

/-- Modelled from the spec: werkzeug's salted `generate_password_hash`
(an external collaborator).  The salt is irrelevant to the claims proved
here, so the hash is modelled as a tagged encoding of the password. -/
def generate_password_hash (password : String) : String :=
  String.append "pbkdf2-sha256$" password

/-- `user.set_password(p); db.session.add(user); db.session.commit()`:
the stored row for the user id gets the fresh hash. -/
def set_password_in (users : List User) (uid : Nat) (password : String) : List User :=
  users.map fun v =>
    if v.user_id == uid then { v with password_hash := generate_password_hash password } else v

/-- The pages the reset-password view can produce. -/
inductive Page where
  | reset_password_expired_html
  | http404
  | reset_password_form (user_id : Nat)
  | reset_password_form_flash (user_id : Nat) (message : String)
  | redirect_login
deriving DecidableEq, Repr

/-- `ResetPasswordView.get(token)`: resolve the token; `SignatureExpired` is
caught first and renders the dedicated expired page, `BadSignature` aborts
with 404, a resolved user gets the reset form; any other exception (a valid
token whose user id is absent) propagates. -/
def ResetPasswordView.get (cfg : AppConfig) (users : List User) (t : Token)
    (now : Nat) : Except PyError Page :=
  match get_user_by_reset_password_token cfg users t now with
  | .ok u => .ok (.reset_password_form u.user_id)
  | .error .SignatureExpired => .ok .reset_password_expired_html
  | .error .BadSignature => .ok .http404
  | .error e => .error e

/-- `ResetPasswordView.post(token)`: the token is resolved with NO
try/except around it — `SignatureExpired` and `BadSignature` propagate out of
the handler; only a resolved user reaches password validation and, on
success, persistence and the redirect to login. -/
def ResetPasswordView.post (cfg : AppConfig) (users : List User) (t : Token)
    (now : Nat) (password1 password2 : String) : Except PyError Page × List User :=
  match get_user_by_reset_password_token cfg users t now with
  | .error e => (.error e, users)
  | .ok u =>
    match validate_equal_passwords password1 password2 with
    | .error m => (.ok (.reset_password_form_flash u.user_id m), users)
    | .ok () =>
      match validate_password_length password2 with
      | .error m => (.ok (.reset_password_form_flash u.user_id m), users)
      | .ok () => (.ok .redirect_login, set_password_in users u.user_id password2)

/-- The outcomes of `RegisterView.post`. -/
inductive RegisterResult where
  | validation_flash (message : String)
  | email_taken_flash
  | username_taken_flash
  | redirect_login
deriving DecidableEq, Repr

/-- The primary-key value assigned to a fresh `users` row. -/
def newUserId (users : List User) : Nat :=
  (users.foldr (fun u m => max u.user_id m) 0) + 1

/-- The `try:` block of `RegisterView.post`: the four validators run in
source order and the first failure wins. -/
def register_validation (email name p1 p2 : String) : Except String Unit :=
  match validate_email email with
  | .error m => .error m
  | .ok () =>
    match validate_length name 3 25
        "Please, input name with a length between 3 and 25 chars" with
    | .error m => .error m
    | .ok () =>
      match validate_equal_passwords p1 p2 with
      | .error m => .error m
      | .ok () => validate_password_length p2

/-- `RegisterView.post`: validate all fields before touching the store, then
reject a duplicate email, then a duplicate username, and only then insert the
new row (with the hash of `password2`) and redirect to login. -/
def RegisterView.post (users : List User)
    (email username name password1 password2 : String) :
    RegisterResult × List User :=
  match register_validation email name password1 password2 with
  | .error m => (.validation_flash m, users)
  | .ok () =>
    if users.any (fun v => v.email == email) then (.email_taken_flash, users)
    else if users.any (fun v => v.username == username) then (.username_taken_flash, users)
    else
      (.redirect_login,
       users ++ [⟨newUserId users, username, email, name, generate_password_hash password2⟩])

/-- `recognize_logged_in_user` (the `before_app_request` hook): take the user
id out of the session; `None` yields the explicit no-user state, and an id is
resolved through `User.get_user_by_id`, whose `UserNotFoundByIndexError`
propagates. -/
def recognize_logged_in_user (users : List User) (session_user_id : Option Nat) :
    Except PyError (Option User) :=
  match session_user_id with
  | none => .ok none
  | some uid =>
    match get_user_by_id users uid with
    | .error e => .error e
    | .ok u => .ok (some u)

/-- C5 counterexample: a POST carrying an expired token does not yield the
distinct expired page — the `SignatureExpired` exception propagates uncaught
out of `ResetPasswordView.post`. -/
theorem reset_password_post_expired_cx :
    (ResetPasswordView.post cfg0 [user1rec] (Token.signed "s3cr3t" 1 0 5) 100
       "newpassword" "newpassword").1 = Except.error PyError.SignatureExpired ∧
    (ResetPasswordView.post cfg0 [user1rec] (Token.signed "s3cr3t" 1 0 5) 100
       "newpassword" "newpassword").1 ≠ Except.ok Page.reset_password_expired_html := by
  constructor
  · rfl
  · intro hc
    rw [show (ResetPasswordView.post cfg0 [user1rec] (Token.signed "s3cr3t" 1 0 5) 100
          "newpassword" "newpassword").1 = Except.error PyError.SignatureExpired from rfl] at hc
    cases hc

/-- C5 (amended): on GET, an expired token yields the dedicated expired page,
an invalid token yields the 404 response, and a resolving token yields the
reset form; on POST the token errors propagate uncaught (they remain two
distinct exceptions and the store is untouched), and only a token resolving
to a user reaches password-pair validation, persistence of the new hash and
the redirect to login.  Expired and Invalid are never collapsed. -/
theorem reset_password_flow (cfg : AppConfig) (users : List User) (t : Token)
    (now : Nat) (p1 p2 : String) :
    (∀ u, get_user_by_reset_password_token cfg users t now = .ok u →
       ResetPasswordView.get cfg users t now = .ok (.reset_password_form u.user_id) ∧
       (validate_equal_passwords p1 p2 = .ok () → validate_password_length p2 = .ok () →
         ResetPasswordView.post cfg users t now p1 p2
           = (.ok .redirect_login, set_password_in users u.user_id p2))) ∧
    (get_user_by_reset_password_token cfg users t now = .error .SignatureExpired →
       ResetPasswordView.get cfg users t now = .ok .reset_password_expired_html ∧
       ResetPasswordView.post cfg users t now p1 p2 = (.error .SignatureExpired, users)) ∧
    (get_user_by_reset_password_token cfg users t now = .error .BadSignature →
       ResetPasswordView.get cfg users t now = .ok .http404 ∧
       ResetPasswordView.post cfg users t now p1 p2 = (.error .BadSignature, users)) ∧
    Page.reset_password_expired_html ≠ Page.http404 ∧
    PyError.SignatureExpired ≠ PyError.BadSignature := by
  refine ⟨?_, ?_, ?_, by simp, by simp⟩
  · intro u hu
    constructor
    · unfold ResetPasswordView.get
      simp only [hu]
    · intro hv1 hv2
      unfold ResetPasswordView.post
      simp only [hu, hv1, hv2]
  · intro he
    constructor
    · unfold ResetPasswordView.get
      simp only [he]
    · unfold ResetPasswordView.post
      simp only [he]
  · intro he
    constructor
    · unfold ResetPasswordView.get
      simp only [he]
    · unfold ResetPasswordView.post
      simp only [he]

/-- Witness for C5 (amended) at concrete inputs: an expired token on GET
renders the expired page while the same POST propagates `SignatureExpired`
and leaves the store unchanged. -/
theorem reset_password_flow_witness :
    ResetPasswordView.get cfg0 [user1rec] (Token.signed "s3cr3t" 1 0 5) 100
      = Except.ok Page.reset_password_expired_html ∧
    ResetPasswordView.post cfg0 [user1rec] (Token.signed "s3cr3t" 1 0 5) 100
      "newpassword" "newpassword" = (Except.error PyError.SignatureExpired, [user1rec]) :=
  (reset_password_flow cfg0 [user1rec] (Token.signed "s3cr3t" 1 0 5) 100
    "newpassword" "newpassword").2.1 rfl

/-- A passing validation chain forces equal passwords of sufficient length. -/
theorem register_validation_ok (email name p1 p2 : String)
    (h : register_validation email name p1 p2 = .ok ()) :
    p1 = p2 ∧ PASSWORD_MIN_LENGTH ≤ p2.length := by
  unfold register_validation at h
  split at h
  · exact Except.noConfusion h
  · split at h
    · exact Except.noConfusion h
    · split at h
      · exact Except.noConfusion h
      · next heq =>
        constructor
        · unfold validate_equal_passwords at heq
          split at heq
          · assumption
          · exact Except.noConfusion heq
        · unfold validate_password_length at h
          split at h
          · assumption
          · exact Except.noConfusion h

/-- `RegisterView.post` either rejects and leaves the store exactly as it
was, or succeeds with every validator passing, no duplicate email or
username, and exactly the one new row appended. -/
theorem register_state_characterization (users : List User)
    (email username name p1 p2 : String) :
    ((RegisterView.post users email username name p1 p2).2 = users ∧
      (RegisterView.post users email username name p1 p2).1 ≠ .redirect_login) ∨
    ((RegisterView.post users email username name p1 p2).1 = .redirect_login ∧
      register_validation email name p1 p2 = .ok () ∧
      users.any (fun v => v.email == email) = false ∧
      users.any (fun v => v.username == username) = false ∧
      (RegisterView.post users email username name p1 p2).2
        = users ++ [⟨newUserId users, username, email, name, generate_password_hash p2⟩]) := by
  unfold RegisterView.post
  split
  · left
    exact ⟨rfl, fun h => RegisterResult.noConfusion h⟩
  · next hv =>
    split
    · left
      exact ⟨rfl, fun h => RegisterResult.noConfusion h⟩
    · next he =>
      split
      · left
        exact ⟨rfl, fun h => RegisterResult.noConfusion h⟩
      · next hu2 =>
        right
        refine ⟨rfl, hv, ?_, ?_, rfl⟩
        · exact Bool.eq_false_iff.mpr he
        · exact Bool.eq_false_iff.mpr hu2

/-- C7: a registration with a duplicate email or username is rejected, one
with mismatched or too-short passwords is rejected, and on every rejected
path the user store is left untouched — validation strictly precedes any
mutation, so there are no partial writes. -/
theorem register_no_partial_writes (users : List User)
    (email username name p1 p2 : String) :
    ((RegisterView.post users email username name p1 p2).1 ≠ .redirect_login →
       (RegisterView.post users email username name p1 p2).2 = users) ∧
    (users.any (fun v => v.email == email) = true →
       (RegisterView.post users email username name p1 p2).1 ≠ .redirect_login) ∧
    (users.any (fun v => v.username == username) = true →
       (RegisterView.post users email username name p1 p2).1 ≠ .redirect_login) ∧
    (p1 ≠ p2 → (RegisterView.post users email username name p1 p2).1 ≠ .redirect_login) ∧
    (p2.length < PASSWORD_MIN_LENGTH →
       (RegisterView.post users email username name p1 p2).1 ≠ .redirect_login) := by
  rcases register_state_characterization users email username name p1 p2 with h | h
  · exact ⟨fun _ => h.1, fun _ => h.2, fun _ => h.2, fun _ => h.2, fun _ => h.2⟩
  · refine ⟨fun hne => absurd h.1 hne, ?_, ?_, ?_, ?_⟩
    · intro hdup
      rw [h.2.2.1] at hdup
      exact absurd hdup (by simp)
    · intro hdup
      rw [h.2.2.2.1] at hdup
      exact absurd hdup (by simp)
    · intro hpq
      exact absurd (register_validation_ok email name p1 p2 h.2.1).1 hpq
    · intro hlen
      have h8 := (register_validation_ok email name p1 p2 h.2.1).2
      omega

/-- Witness for C7 at a concrete input: registering with a duplicate email is
rejected and creates no row. -/
theorem register_no_partial_writes_witness :
    (RegisterView.post [user1rec] "user1@gmail.com" "user2" "somename"
       "longpassword" "longpassword").1 ≠ RegisterResult.redirect_login ∧
    (RegisterView.post [user1rec] "user1@gmail.com" "user2" "somename"
       "longpassword" "longpassword").2 = [user1rec] :=
  have h := register_no_partial_writes [user1rec] "user1@gmail.com" "user2" "somename"
    "longpassword" "longpassword"
  ⟨h.2.1 (by decide), h.1 (h.2.1 (by decide))⟩

/-- C8 counterexample: a session state on which the per-request current-user
resolution raises — the session carries user id 1 but no such user exists, so
`recognize_logged_in_user` propagates `UserNotFoundByIndexError` instead of
yielding the explicit no-user state. -/
theorem recognize_user_raises_cx :
    recognize_logged_in_user [] (some 1) = .error PyError.UserNotFoundByIndexError := rfl

/-- C8 (amended): the per-request current-user resolution yields the explicit
no-user state (`None`) when the session carries no id and the stored user
when the id resolves, but a session id matching no user row raises
`UserNotFoundByIndexError` — the handler is not total over stale session
ids. -/
theorem recognize_logged_in_user_cases (users : List User) (sid : Option Nat) :
    (sid = none → recognize_logged_in_user users sid = .ok none) ∧
    (∀ uid u, sid = some uid → users.find? (fun v => v.user_id == uid) = some u →
       recognize_logged_in_user users sid = .ok (some u)) ∧
    (∀ uid, sid = some uid → users.find? (fun v => v.user_id == uid) = none →
       recognize_logged_in_user users sid = .error PyError.UserNotFoundByIndexError) := by
  refine ⟨?_, ?_, ?_⟩
  · intro h
    subst h
    rfl
  · intro uid u hsid hf
    subst hsid
    unfold recognize_logged_in_user get_user_by_id
    simp only [hf]
  · intro uid hsid hf
    subst hsid
    unfold recognize_logged_in_user get_user_by_id
    simp only [hf]

/-- Witness for C8 (amended) at concrete inputs: an empty session resolves to
the no-user state and a session holding id 1 resolves to the stored user. -/
theorem recognize_logged_in_user_witness :
    recognize_logged_in_user [user1rec] (some 1) = .ok (some user1rec) ∧
    recognize_logged_in_user [user1rec] none = .ok none :=
  ⟨(recognize_logged_in_user_cases [user1rec] (some 1)).2.1 1 user1rec rfl rfl,
   (recognize_logged_in_user_cases [user1rec] none).1 rfl⟩
